import Mathlib

/-!
Verification of the Adafruit PlantMonitor sample-convert-publish loop
(`src/code.py`), shallowly embedded in Lean 4.

Numeric values carried by the program (clock readings, sensor readings,
converted measurements) are modelled as rationals `ℚ`; the decimal
literals `1.80`, `10.764` of the source are exact rationals.  Each
iteration of the `while True` loop is a pure step function over an
explicit environment recording what the outside world (clock, sensors,
network) does during that iteration, and it produces the successor
state, the list of externally visible calls made (sensor reads,
`io.publish`, `wifi.reset`, `io.connect`) and, when an exception
escapes the loop body uncaught, that exception.
-/

namespace PlantMonitor

/-- Exception classes relevant to the loop: `OSError` (the only class the
`except` clause at line 220 of `code.py` catches) and any other class. -/
inductive Exc where
  | osError
  | other
deriving DecidableEq, Repr

/-- Externally visible calls made by the loop body, in program order:
the three sensor-driver reads (`light_sensor.lux`,
`soil_sensor.moisture_read()`, `soil_sensor.get_temp()`), an
`io.publish(channel, value)` call, a `wifi.reset()` call, and the
one-time `io.connect()` of setup. -/
inductive Event where
  | readLux
  | readMoisture
  | readTemp
  | publish (channel : String) (value : ℚ)
  | wifiReset
  | ioConnect
deriving DecidableEq, Repr

/-- The `plant_measurements` dictionary of `code.py` line 195: three
fixed keys mapped to rationals. -/
structure PlantMeasurements where
  sunlight : ℚ
  moisture : ℚ
  temperature : ℚ
deriving DecidableEq, Repr

/-- The loop-carried state: the `last_updated` clock reference
(line 197 / line 225) and the `plant_measurements` dictionary. -/
structure LoopState where
  last_updated : ℚ
  plant_measurements : PlantMeasurements
deriving DecidableEq, Repr

/-- What the environment does during one iteration of the `while True`
loop: the monotonic-clock value returned at the interval check
(line 201) and at the final `time.monotonic()` call (line 225), the
outcome of each of the three sensor reads (a value, or an exception the
driver raises), and for each of the three `io.publish` calls whether it
returns normally (`none`) or raises an exception of the given class. -/
structure IterEnv where
  tCheck : ℚ
  tEnd : ℚ
  luxRead : Except Exc ℚ
  moistureRead : Except Exc ℤ
  tempRead : Except Exc ℚ
  pubSun : Option Exc
  pubMoisture : Option Exc
  pubTemperature : Option Exc
deriving Repr

/-- Result of one loop iteration: the successor state, the calls made
during the iteration in order, and the exception escaping the loop body
uncaught, if any (the loop itself has no handler, so such an exception
is fatal to the program). -/
structure IterResult where
  state : LoopState
  events : List Event
  fatal : Option Exc
deriving DecidableEq, Repr

/-- `cel_to_fahr` of `code.py` lines 63–64: `celsius * 1.80 + 32`. -/
def cel_to_fahr (celsius : ℚ) : ℚ :=
  celsius * 1.80 + 32

/-- `lux_to_footcandle` of `code.py` lines 68–69: `lux / 10.764`. -/
def lux_to_footcandle (lux : ℚ) : ℚ :=
  lux / 10.764

/-- The inline moisture conversion of `code.py` line 205:
`soil_sensor.moisture_read() / 20` (Python true division). -/
def moistureScale (raw : ℤ) : ℚ :=
  (raw : ℚ) / 20

/-- The `try` block of lines 213–223: the three `io.publish` calls in
order, the `except OSError` handler calling `wifi.reset()` followed by
`continue`, and any other exception propagating out.  Returns the calls
made, the uncaught exception if any, and whether the end of the `try`
block was reached (so that line 225 runs). -/
def tryPublish (env : IterEnv) (pm : PlantMeasurements) :
    List Event × Option Exc × Bool :=
  match env.pubSun with
  | some Exc.osError => ([.publish "sun" pm.sunlight, .wifiReset], none, false)
  | some Exc.other => ([.publish "sun" pm.sunlight], some Exc.other, false)
  | none =>
    match env.pubMoisture with
    | some Exc.osError =>
      ([.publish "sun" pm.sunlight, .publish "spruce.moisture" pm.moisture,
        .wifiReset], none, false)
    | some Exc.other =>
      ([.publish "sun" pm.sunlight, .publish "spruce.moisture" pm.moisture],
        some Exc.other, false)
    | none =>
      match env.pubTemperature with
      | some Exc.osError =>
        ([.publish "sun" pm.sunlight, .publish "spruce.moisture" pm.moisture,
          .publish "spruce.temperature" pm.temperature, .wifiReset],
          none, false)
      | some Exc.other =>
        ([.publish "sun" pm.sunlight, .publish "spruce.moisture" pm.moisture,
          .publish "spruce.temperature" pm.temperature], some Exc.other, false)
      | none =>
        ([.publish "sun" pm.sunlight, .publish "spruce.moisture" pm.moisture,
          .publish "spruce.temperature" pm.temperature], none, true)

/-- One iteration of the `while True` loop (lines 199–225).  If the
interval check `time.monotonic() - last_updated >= 60` fails the body is
skipped entirely.  Otherwise the three sensors are read in order
(lines 204–206, outside the `try`, so a sensor exception propagates
uncaught), each read's converted value is stored into
`plant_measurements`, then the `try` block runs, and if it completes
normally `last_updated` is set to the fresh clock reading of
line 225. -/
def loopIter (env : IterEnv) (s : LoopState) : IterResult :=
  if env.tCheck - s.last_updated ≥ 60 then
    match env.luxRead with
    | .error e => ⟨s, [.readLux], some e⟩
    | .ok lux =>
      let pm1 : PlantMeasurements :=
        { s.plant_measurements with sunlight := lux_to_footcandle lux }
      match env.moistureRead with
      | .error e => ⟨{ s with plant_measurements := pm1 },
          [.readLux, .readMoisture], some e⟩
      | .ok raw =>
        let pm2 : PlantMeasurements := { pm1 with moisture := moistureScale raw }
        match env.tempRead with
        | .error e => ⟨{ s with plant_measurements := pm2 },
            [.readLux, .readMoisture, .readTemp], some e⟩
        | .ok tc =>
          let pm3 : PlantMeasurements := { pm2 with temperature := cel_to_fahr tc }
          let r := tryPublish env pm3
          let s3 : LoopState := { s with plant_measurements := pm3 }
          if r.2.2 then
            ⟨{ s3 with last_updated := env.tEnd },
              [.readLux, .readMoisture, .readTemp] ++ r.1, r.2.1⟩
          else
            ⟨s3, [.readLux, .readMoisture, .readTemp] ++ r.1, r.2.1⟩
  else
    ⟨s, [], none⟩

/-- The state right after setup: `last_updated = time.monotonic() - 60`
(line 197, with `t0` the clock value returned there) and the
`plant_measurements` dictionary initialised to `0.0` (line 195). -/
def initialState (t0 : ℚ) : LoopState :=
  ⟨t0 - 60, ⟨0, 0, 0⟩⟩

/-- Run the loop over a finite prefix of iteration environments,
stopping early when an iteration lets an exception escape.  Returns the
concatenated event trace, the final state, and the fatal exception if
one occurred. -/
def runLoop : List IterEnv → LoopState → List Event × LoopState × Option Exc
  | [], s => ([], s, none)
  | env :: rest, s =>
    let r := loopIter env s
    match r.fatal with
    | some e => (r.events, r.state, some e)
    | none =>
      let rest' := runLoop rest r.state
      (r.events ++ rest'.1, rest'.2.1, rest'.2.2)

/-- The whole program after WiFi setup: `io.connect()` is called once
(line 191), then the loop runs from the initial state. -/
def runProgram (t0 : ℚ) (envs : List IterEnv) :
    List Event × LoopState × Option Exc :=
  let r := runLoop envs (initialState t0)
  (Event.ioConnect :: r.1, r.2.1, r.2.2)

/-- A loop state whose `last_updated` is 40, so that at clock value 100
exactly 60 seconds have elapsed. -/
def sIdle : LoopState :=
  ⟨40, ⟨0, 0, 0⟩⟩

/-- An iteration in which the interval has elapsed, all sensor reads
succeed (lux 500, raw moisture 1000, 22 °C) and all three publishes
succeed. -/
def envSuccess : IterEnv :=
  ⟨100, 105, .ok 500, .ok 1000, .ok 22, none, none, none⟩

/-- Like `envSuccess` but only 59 seconds have elapsed at the interval
check when started from `sIdle`. -/
def env59 : IterEnv :=
  ⟨99, 105, .ok 500, .ok 1000, .ok 22, none, none, none⟩

/-- Like `envSuccess` but the second publish (`spruce.moisture`) raises
`OSError`. -/
def envMoistFail : IterEnv :=
  ⟨100, 105, .ok 500, .ok 1000, .ok 22, none, some Exc.osError, none⟩

/-- Like `envSuccess` but the light-sensor read raises `OSError`. -/
def envLuxErr : IterEnv :=
  ⟨100, 105, .error Exc.osError, .ok 1000, .ok 22, none, none, none⟩

/-- Like `envSuccess` but the first publish raises a non-`OSError`
exception. -/
def envPubOther : IterEnv :=
  ⟨100, 105, .ok 500, .ok 1000, .ok 22, some Exc.other, none, none⟩

/-- Like `envSuccess` but with an out-of-range raw moisture reading. -/
def envMoistBig : IterEnv :=
  ⟨100, 105, .ok 500, .ok 4000, .ok 22, none, none, none⟩

/-- An iteration polled one second after `envSuccess` finished (its
final clock reading was 105), so only 1 second has elapsed. -/
def envNext : IterEnv :=
  ⟨106, 107, .ok 500, .ok 1000, .ok 22, none, none, none⟩

/-! ### Helper lemmas -/

/-- If the interval check fails, the loop body is skipped: the state is
unchanged, no external call is made, and nothing is raised. -/
theorem loopIter_skip (env : IterEnv) (s : LoopState)
    (h : ¬ env.tCheck - s.last_updated ≥ 60) :
    loopIter env s = ⟨s, [], none⟩ := by
  unfold loopIter
  rw [if_neg h]

/-- If the interval check succeeds, the first external call of the
iteration is the light-sensor read. -/
theorem loopIter_enter_readLux (env : IterEnv) (s : LoopState)
    (h : env.tCheck - s.last_updated ≥ 60) :
    Event.readLux ∈ (loopIter env s).events := by
  unfold loopIter
  rw [if_pos h]
  rcases env.luxRead with e | lux
  · simp
  · rcases env.moistureRead with e | raw
    · simp
    · rcases env.tempRead with e | tc
      · simp
      · dsimp only
        split <;> simp

/-- The `try` block never calls `io.connect`. -/
theorem tryPublish_no_ioConnect (env : IterEnv) (pm : PlantMeasurements) :
    Event.ioConnect ∉ (tryPublish env pm).1 := by
  unfold tryPublish
  rcases env.pubSun with _ | e1
  · rcases env.pubMoisture with _ | e2
    · rcases env.pubTemperature with _ | e3
      · simp
      · cases e3 <;> simp
    · cases e2 <;> simp
  · cases e1 <;> simp

/-- No loop iteration ever calls `io.connect`. -/
theorem loopIter_no_ioConnect (env : IterEnv) (s : LoopState) :
    Event.ioConnect ∉ (loopIter env s).events := by
  unfold loopIter
  split
  · rcases env.luxRead with e | lux
    · simp
    · rcases env.moistureRead with e | raw
      · simp
      · rcases env.tempRead with e | tc
        · simp
        · dsimp only
          split <;>
            simpa using tryPublish_no_ioConnect env _
  · simp

/-- No run of the loop ever calls `io.connect`. -/
theorem runLoop_no_ioConnect (envs : List IterEnv) (s : LoopState) :
    Event.ioConnect ∉ (runLoop envs s).1 := by
  induction envs generalizing s with
  | nil => simp [runLoop]
  | cons env rest ih =>
    unfold runLoop
    cases hf : (loopIter env s).fatal with
    | some e =>
      simp only [hf]
      simpa using loopIter_no_ioConnect env s
    | none =>
      simp only [hf, List.mem_append]
      rintro (h | h)
      · exact loopIter_no_ioConnect env s h
      · exact ih _ h

/-- Every branch of the `try` block starts by attempting the `sun`
publish. -/
theorem tryPublish_sun_mem (env : IterEnv) (pm : PlantMeasurements) :
    Event.publish "sun" pm.sunlight ∈ (tryPublish env pm).1 := by
  unfold tryPublish
  rcases env.pubSun with _ | e1
  · rcases env.pubMoisture with _ | e2
    · rcases env.pubTemperature with _ | e3
      · simp
      · cases e3 <;> simp
    · cases e2 <;> simp
  · cases e1 <;> simp

/-- The `try` block never lets an `OSError` escape: the `except OSError`
handler catches exactly that class. -/
theorem tryPublish_no_osError (env : IterEnv) (pm : PlantMeasurements) :
    (tryPublish env pm).2.1 ≠ some Exc.osError := by
  unfold tryPublish
  rcases env.pubSun with _ | e1
  · rcases env.pubMoisture with _ | e2
    · rcases env.pubTemperature with _ | e3
      · simp
      · cases e3 <;> simp
    · cases e2 <;> simp
  · cases e1 <;> simp

/-- When the interval has elapsed and all three sensor reads succeed,
the iteration's event trace is the three reads followed by whatever the
`try` block does with the freshly converted measurements. -/
theorem loopIter_sensors_ok_events (env : IterEnv) (s : LoopState)
    (lux tc : ℚ) (raw : ℤ)
    (h : env.tCheck - s.last_updated ≥ 60)
    (hl : env.luxRead = .ok lux)
    (hm : env.moistureRead = .ok raw)
    (ht : env.tempRead = .ok tc) :
    (loopIter env s).events = [.readLux, .readMoisture, .readTemp] ++
      (tryPublish env
        ⟨lux_to_footcandle lux, moistureScale raw, cel_to_fahr tc⟩).1 := by
  unfold loopIter
  rw [if_pos h, hl, hm, ht]
  dsimp only
  split <;> rfl

/-- When the interval has elapsed and all three sensor reads succeed,
the exception escaping the iteration (if any) is exactly the one the
`try` block lets through. -/
theorem loopIter_sensors_ok_fatal (env : IterEnv) (s : LoopState)
    (lux tc : ℚ) (raw : ℤ)
    (h : env.tCheck - s.last_updated ≥ 60)
    (hl : env.luxRead = .ok lux)
    (hm : env.moistureRead = .ok raw)
    (ht : env.tempRead = .ok tc) :
    (loopIter env s).fatal = (tryPublish env
      ⟨lux_to_footcandle lux, moistureScale raw, cel_to_fahr tc⟩).2.1 := by
  unfold loopIter
  rw [if_pos h, hl, hm, ht]
  dsimp only
  split <;> rfl

/-- Shape of a fully successful cycle: interval elapsed, all sensor
reads succeed, all publishes return normally. -/
theorem loopIter_success (env : IterEnv) (s : LoopState)
    (lux tc : ℚ) (raw : ℤ)
    (h : env.tCheck - s.last_updated ≥ 60)
    (hl : env.luxRead = .ok lux)
    (hm : env.moistureRead = .ok raw)
    (ht : env.tempRead = .ok tc)
    (hp1 : env.pubSun = none)
    (hp2 : env.pubMoisture = none)
    (hp3 : env.pubTemperature = none) :
    loopIter env s =
      ⟨⟨env.tEnd, ⟨lux_to_footcandle lux, moistureScale raw, cel_to_fahr tc⟩⟩,
       [.readLux, .readMoisture, .readTemp,
        .publish "sun" (lux_to_footcandle lux),
        .publish "spruce.moisture" (moistureScale raw),
        .publish "spruce.temperature" (cel_to_fahr tc)], none⟩ := by
  unfold loopIter tryPublish
  rw [if_pos h, hl, hm, ht, hp1, hp2, hp3]
  rfl

/-- Shape of a cycle in which the second publish (`spruce.moisture`)
raises `OSError`: the handler calls `wifi.reset()` and `continue`
skips the `last_updated` update. -/
theorem loopIter_moistFail (env : IterEnv) (s : LoopState)
    (lux tc : ℚ) (raw : ℤ)
    (h : env.tCheck - s.last_updated ≥ 60)
    (hl : env.luxRead = .ok lux)
    (hm : env.moistureRead = .ok raw)
    (ht : env.tempRead = .ok tc)
    (hp1 : env.pubSun = none)
    (hp2 : env.pubMoisture = some Exc.osError) :
    loopIter env s =
      ⟨⟨s.last_updated, ⟨lux_to_footcandle lux, moistureScale raw, cel_to_fahr tc⟩⟩,
       [.readLux, .readMoisture, .readTemp,
        .publish "sun" (lux_to_footcandle lux),
        .publish "spruce.moisture" (moistureScale raw),
        .wifiReset], none⟩ := by
  unfold loopIter tryPublish
  rw [if_pos h, hl, hm, ht, hp1, hp2]
  rfl

/-! ### Claims -/

/-- Claim C1: in every cycle in which the publish of the second channel
(`spruce.moisture`) raises a transport error (`OSError`), the third
channel (`spruce.temperature`) is not published in that cycle,
`wifi.reset()` is invoked exactly once, the `last_updated` timestamp
keeps its pre-cycle value, and the error does not escape the loop. -/
theorem moisture_oserror_aborts_cycle (env : IterEnv) (s : LoopState)
    (lux tc : ℚ) (raw : ℤ)
    (h : env.tCheck - s.last_updated ≥ 60)
    (hl : env.luxRead = .ok lux)
    (hm : env.moistureRead = .ok raw)
    (ht : env.tempRead = .ok tc)
    (hp1 : env.pubSun = none)
    (hp2 : env.pubMoisture = some Exc.osError) :
    (∀ v : ℚ, Event.publish "spruce.temperature" v ∉ (loopIter env s).events) ∧
    (loopIter env s).events.count Event.wifiReset = 1 ∧
    (loopIter env s).state.last_updated = s.last_updated ∧
    (loopIter env s).fatal = none := by
  rw [loopIter_moistFail env s lux tc raw h hl hm ht hp1 hp2]
  refine ⟨?_, ?_, rfl, rfl⟩
  · intro v
    simp
  · simp [List.count_cons]

/-- Witness for C1 at a concrete cycle: start at `last_updated = 40`,
clock 100 at the check, readings lux 500 / raw 1000 / 22 °C, `sun`
publish succeeds, `spruce.moisture` publish raises `OSError`. -/
theorem moisture_oserror_aborts_cycle_witness :
    (∀ v : ℚ,
      Event.publish "spruce.temperature" v ∉ (loopIter envMoistFail sIdle).events) ∧
    (loopIter envMoistFail sIdle).events.count Event.wifiReset = 1 ∧
    (loopIter envMoistFail sIdle).state.last_updated = sIdle.last_updated ∧
    (loopIter envMoistFail sIdle).fatal = none :=
  moisture_oserror_aborts_cycle envMoistFail sIdle 500 22 1000
    (by norm_num [envMoistFail, sIdle]) rfl rfl rfl rfl rfl

/-- Claim C2, counterexample: in the concrete fully successful cycle
`envSuccess` (interval check passes at clock 100, final clock reading
105), the recorded `last_updated` is 105 — the clock value read after
the publishes at line 225 — and not the cycle's start time 100, so the
claim as stated is false. -/
theorem last_updated_start_counterexample :
    (loopIter envSuccess sIdle).fatal = none ∧
    (loopIter envSuccess sIdle).state.last_updated = envSuccess.tEnd ∧
    (loopIter envSuccess sIdle).state.last_updated ≠ envSuccess.tCheck := by
  refine ⟨?_, ?_, ?_⟩ <;>
    norm_num [loopIter, tryPublish, envSuccess, sIdle]

/-- Claim C2 as amended: for every cycle whose three publishes all
succeed, the value recorded as the new `last_updated` reference is the
fresh monotonic-clock reading taken after the third publish completes
(the cycle's end), not the clock value observed at the interval
check. -/
theorem success_records_cycle_end (env : IterEnv) (s : LoopState)
    (lux tc : ℚ) (raw : ℤ)
    (h : env.tCheck - s.last_updated ≥ 60)
    (hl : env.luxRead = .ok lux)
    (hm : env.moistureRead = .ok raw)
    (ht : env.tempRead = .ok tc)
    (hp1 : env.pubSun = none)
    (hp2 : env.pubMoisture = none)
    (hp3 : env.pubTemperature = none) :
    (loopIter env s).state.last_updated = env.tEnd := by
  rw [loopIter_success env s lux tc raw h hl hm ht hp1 hp2 hp3]

/-- Witness for the amended C2 at the concrete cycle `envSuccess`. -/
theorem success_records_cycle_end_witness :
    (loopIter envSuccess sIdle).state.last_updated = envSuccess.tEnd :=
  success_records_cycle_end envSuccess sIdle 500 22 1000
    (by norm_num [envSuccess, sIdle]) rfl rfl rfl rfl rfl rfl

/-- Claim C3: on every poll iteration the loop enters the Cycle state —
observable as the light-sensor read happening, the first action of the
body — if and only if the monotonic clock at the check minus
`last_updated` is at least 60; when the condition fails, the iteration
leaves the state untouched, makes no external call and raises
nothing. -/
theorem cycle_entered_iff_interval (env : IterEnv) (s : LoopState) :
    (Event.readLux ∈ (loopIter env s).events ↔
      env.tCheck - s.last_updated ≥ 60) ∧
    (¬ env.tCheck - s.last_updated ≥ 60 → loopIter env s = ⟨s, [], none⟩) := by
  refine ⟨⟨?_, loopIter_enter_readLux env s⟩, loopIter_skip env s⟩
  intro hm
  by_contra hc
  rw [loopIter_skip env s hc] at hm
  simp at hm

/-- Witness for C3: at elapsed 59 s the loop stays idle (no event), at
elapsed exactly 60 s it enters the cycle, and one second after the
successful cycle `envSuccess` (which set `last_updated` to 105) the
loop stays idle again. -/
theorem cycle_entered_iff_interval_witness :
    loopIter env59 sIdle = ⟨sIdle, [], none⟩ ∧
    Event.readLux ∈ (loopIter envSuccess sIdle).events ∧
    loopIter envNext (loopIter envSuccess sIdle).state =
      ⟨(loopIter envSuccess sIdle).state, [], none⟩ := by
  refine ⟨(cycle_entered_iff_interval env59 sIdle).2
      (by norm_num [env59, sIdle]),
    (cycle_entered_iff_interval envSuccess sIdle).1.mpr
      (by norm_num [envSuccess, sIdle]), ?_⟩
  apply (cycle_entered_iff_interval envNext (loopIter envSuccess sIdle).state).2
  norm_num [loopIter, tryPublish, envSuccess, envNext, sIdle]

/-- Claim C4: in every cycle whose publishes all succeed, the three
converted values are published in the fixed order `sun`,
`spruce.moisture`, `spruce.temperature`; and at raw inputs lux 500, raw
moisture 1000, 22 °C the published values are 500 / 10.764 (within 0.01
of 46.45), exactly 50, and exactly 71.6. -/
theorem publish_order_and_values (env : IterEnv) (s : LoopState)
    (lux tc : ℚ) (raw : ℤ)
    (h : env.tCheck - s.last_updated ≥ 60)
    (hl : env.luxRead = .ok lux)
    (hm : env.moistureRead = .ok raw)
    (ht : env.tempRead = .ok tc)
    (hp1 : env.pubSun = none)
    (hp2 : env.pubMoisture = none)
    (hp3 : env.pubTemperature = none) :
    (loopIter env s).events = [.readLux, .readMoisture, .readTemp,
      .publish "sun" (lux_to_footcandle lux),
      .publish "spruce.moisture" (moistureScale raw),
      .publish "spruce.temperature" (cel_to_fahr tc)] ∧
    lux_to_footcandle 500 = 500 / 10.764 ∧
    |lux_to_footcandle 500 - 46.45| < 1 / 100 ∧
    moistureScale 1000 = 50 ∧
    cel_to_fahr 22 = 71.6 := by
  refine ⟨?_, rfl, ?_, ?_, ?_⟩
  · rw [loopIter_success env s lux tc raw h hl hm ht hp1 hp2 hp3]
  · rw [abs_sub_lt_iff]
    norm_num [lux_to_footcandle]
  · norm_num [moistureScale]
  · norm_num [cel_to_fahr]

/-- Witness for C4 at the concrete cycle `envSuccess` (lux 500, raw
moisture 1000, 22 °C, all publishes succeed). -/
theorem publish_order_and_values_witness :
    (loopIter envSuccess sIdle).events = [.readLux, .readMoisture, .readTemp,
      .publish "sun" (lux_to_footcandle 500),
      .publish "spruce.moisture" (moistureScale 1000),
      .publish "spruce.temperature" (cel_to_fahr 22)] ∧
    lux_to_footcandle 500 = 500 / 10.764 ∧
    |lux_to_footcandle 500 - 46.45| < 1 / 100 ∧
    moistureScale 1000 = 50 ∧
    cel_to_fahr 22 = 71.6 :=
  publish_order_and_values envSuccess sIdle 500 22 1000
    (by norm_num [envSuccess, sIdle]) rfl rfl rfl rfl rfl rfl

/-- Claim C5: for every raw moisture value `r` (any integer, also
outside [200, 2000]) the converted moisture value is `r / 20` with no
clamping — 200 maps to 10, 2000 to 100, and the out-of-range 4000
passes through as 200 — and in any successful cycle the value published
to `spruce.moisture` is exactly `r / 20`. -/
theorem moisture_conversion_unclamped :
    (∀ r : ℤ, moistureScale r = (r : ℚ) / 20) ∧
    moistureScale 200 = 10 ∧
    moistureScale 2000 = 100 ∧
    moistureScale 4000 = 200 ∧
    (∀ (env : IterEnv) (s : LoopState) (lux tc : ℚ) (raw : ℤ),
      env.tCheck - s.last_updated ≥ 60 →
      env.luxRead = .ok lux →
      env.moistureRead = .ok raw →
      env.tempRead = .ok tc →
      env.pubSun = none →
      env.pubMoisture = none →
      env.pubTemperature = none →
      Event.publish "spruce.moisture" ((raw : ℚ) / 20) ∈
        (loopIter env s).events) := by
  refine ⟨fun r => rfl, by norm_num [moistureScale],
    by norm_num [moistureScale], by norm_num [moistureScale], ?_⟩
  intro env s lux tc raw h hl hm ht hp1 hp2 hp3
  rw [loopIter_success env s lux tc raw h hl hm ht hp1 hp2 hp3]
  simp [moistureScale]

/-- Witness for C5 at the concrete cycle `envMoistBig`, whose raw
moisture reading 4000 lies outside the documented range and is
published unclamped as 200. -/
theorem moisture_conversion_unclamped_witness :
    Event.publish "spruce.moisture" ((4000 : ℚ) / 20) ∈
      (loopIter envMoistBig sIdle).events := by
  have h := moisture_conversion_unclamped.2.2.2.2 envMoistBig sIdle 500 22 4000
    (by norm_num [envMoistBig, sIdle]) rfl rfl rfl rfl rfl rfl
  simpa using h

/-- Claim C6: for every `c` the Celsius-to-Fahrenheit converter returns
exactly `c * 1.8 + 32` with no error condition, and in any successful
cycle that value is what gets published to `spruce.temperature`. -/
theorem celsius_to_fahrenheit_exact :
    (∀ c : ℚ, cel_to_fahr c = c * 1.8 + 32) ∧
    (∀ (env : IterEnv) (s : LoopState) (lux tc : ℚ) (raw : ℤ),
      env.tCheck - s.last_updated ≥ 60 →
      env.luxRead = .ok lux →
      env.moistureRead = .ok raw →
      env.tempRead = .ok tc →
      env.pubSun = none →
      env.pubMoisture = none →
      env.pubTemperature = none →
      Event.publish "spruce.temperature" (tc * 1.8 + 32) ∈
        (loopIter env s).events) := by
  have hconv : ∀ c : ℚ, cel_to_fahr c = c * 1.8 + 32 := by
    intro c
    norm_num [cel_to_fahr]
  refine ⟨hconv, ?_⟩
  intro env s lux tc raw h hl hm ht hp1 hp2 hp3
  rw [loopIter_success env s lux tc raw h hl hm ht hp1 hp2 hp3, hconv tc]
  simp

/-- Witness for C6 at the concrete cycle `envSuccess` (22 °C is
published as 71.6 °F). -/
theorem celsius_to_fahrenheit_exact_witness :
    cel_to_fahr 22 = 22 * 1.8 + 32 ∧
    Event.publish "spruce.temperature" ((22 : ℚ) * 1.8 + 32) ∈
      (loopIter envSuccess sIdle).events :=
  ⟨celsius_to_fahrenheit_exact.1 22,
    celsius_to_fahrenheit_exact.2 envSuccess sIdle 500 22 1000
      (by norm_num [envSuccess, sIdle]) rfl rfl rfl rfl rfl rfl⟩

/-- Claim C7: for every `l ≥ 0` the lux-to-foot-candle converter returns
exactly `l / 10.764` with no error condition, and in any cycle entered
with all sensor reads succeeding the value attempted on channel `sun`
is exactly `l / 10.764`, whatever the publish outcomes are. -/
theorem lux_conversion_exact :
    (∀ l : ℚ, 0 ≤ l → lux_to_footcandle l = l / 10.764) ∧
    (∀ (env : IterEnv) (s : LoopState) (l tc : ℚ) (raw : ℤ),
      env.tCheck - s.last_updated ≥ 60 →
      env.luxRead = .ok l →
      env.moistureRead = .ok raw →
      env.tempRead = .ok tc →
      Event.publish "sun" (l / 10.764) ∈ (loopIter env s).events) := by
  refine ⟨fun l _ => rfl, ?_⟩
  intro env s l tc raw h hl hm ht
  rw [loopIter_sensors_ok_events env s l tc raw h hl hm ht]
  have hs := tryPublish_sun_mem env
    ⟨lux_to_footcandle l, moistureScale raw, cel_to_fahr tc⟩
  simp only [List.mem_append]
  exact Or.inr hs

/-- Witness for C7 at the concrete cycle `envMoistFail`: even though the
moisture publish fails, the `sun` value 500 / 10.764 was attempted. -/
theorem lux_conversion_exact_witness :
    (0 : ℚ) ≤ 500 ∧ lux_to_footcandle 500 = 500 / 10.764 ∧
    Event.publish "sun" ((500 : ℚ) / 10.764) ∈
      (loopIter envMoistFail sIdle).events :=
  ⟨by norm_num, lux_conversion_exact.1 500 (by norm_num),
    lux_conversion_exact.2 envMoistFail sIdle 500 22 1000
      (by norm_num [envMoistFail, sIdle]) rfl rfl rfl⟩

/-- Claim C8: only errors raised during the publish steps are caught
and recovered (in particular no `OSError` escapes a cycle whose sensor
reads all succeed), while an error raised by any of the three sensor
reads — `OSError` included — is not caught anywhere in the loop and
escapes as fatal, without triggering the `wifi.reset()` recovery. -/
theorem sensor_errors_fatal :
    (∀ (env : IterEnv) (s : LoopState) (e : Exc),
      env.tCheck - s.last_updated ≥ 60 →
      env.luxRead = .error e →
      loopIter env s = ⟨s, [.readLux], some e⟩) ∧
    (∀ (env : IterEnv) (s : LoopState) (lux : ℚ) (e : Exc),
      env.tCheck - s.last_updated ≥ 60 →
      env.luxRead = .ok lux →
      env.moistureRead = .error e →
      (loopIter env s).fatal = some e ∧
      Event.wifiReset ∉ (loopIter env s).events) ∧
    (∀ (env : IterEnv) (s : LoopState) (lux : ℚ) (raw : ℤ) (e : Exc),
      env.tCheck - s.last_updated ≥ 60 →
      env.luxRead = .ok lux →
      env.moistureRead = .ok raw →
      env.tempRead = .error e →
      (loopIter env s).fatal = some e ∧
      Event.wifiReset ∉ (loopIter env s).events) ∧
    (∀ (env : IterEnv) (s : LoopState) (lux tc : ℚ) (raw : ℤ),
      env.tCheck - s.last_updated ≥ 60 →
      env.luxRead = .ok lux →
      env.moistureRead = .ok raw →
      env.tempRead = .ok tc →
      (loopIter env s).fatal ≠ some Exc.osError) := by
  refine ⟨?_, ?_, ?_, ?_⟩
  · intro env s e h hl
    unfold loopIter
    rw [if_pos h, hl]
  · intro env s lux e h hl hm
    unfold loopIter
    rw [if_pos h, hl, hm]
    exact ⟨rfl, by simp⟩
  · intro env s lux raw e h hl hm ht
    unfold loopIter
    rw [if_pos h, hl, hm, ht]
    exact ⟨rfl, by simp⟩
  · intro env s lux tc raw h hl hm ht
    rw [loopIter_sensors_ok_fatal env s lux tc raw h hl hm ht]
    exact tryPublish_no_osError env _

/-- Witness for C8: a concrete light-sensor `OSError` escapes the loop
as fatal, while the concrete failing-publish cycle `envMoistFail`
recovers (no `OSError` escapes). -/
theorem sensor_errors_fatal_witness :
    loopIter envLuxErr sIdle = ⟨sIdle, [.readLux], some Exc.osError⟩ ∧
    (loopIter envMoistFail sIdle).fatal ≠ some Exc.osError :=
  ⟨sensor_errors_fatal.1 envLuxErr sIdle Exc.osError
      (by norm_num [envLuxErr, sIdle]) rfl,
    sensor_errors_fatal.2.2.2 envMoistFail sIdle 500 22 1000
      (by norm_num [envMoistFail, sIdle]) rfl rfl rfl⟩

/-- Claim C9: at startup `last_updated` is initialised to the clock
value minus 60, so every first poll whose clock reading is at least the
startup reading already satisfies the interval condition and the loop
enters its first cycle immediately. -/
theorem first_poll_enters_immediately (t0 : ℚ) (env : IterEnv)
    (h : env.tCheck ≥ t0) :
    (initialState t0).last_updated = t0 - 60 ∧
    env.tCheck - (initialState t0).last_updated ≥ 60 ∧
    Event.readLux ∈ (loopIter env (initialState t0)).events := by
  have h60 : env.tCheck - (initialState t0).last_updated ≥ 60 := by
    simp only [initialState]
    linarith
  exact ⟨rfl, h60, loopIter_enter_readLux _ _ h60⟩

/-- Witness for C9: starting at clock 100, the very first poll (also at
clock 100) already enters a cycle. -/
theorem first_poll_enters_immediately_witness :
    (initialState 100).last_updated = 100 - 60 ∧
    envSuccess.tCheck - (initialState 100).last_updated ≥ 60 ∧
    Event.readLux ∈ (loopIter envSuccess (initialState 100)).events :=
  first_poll_enters_immediately 100 envSuccess (by norm_num [envSuccess])

/-- Claim C10: the recovery path only catches `OSError` — a publish
raising any other exception class is fatal — the loop body never calls
`io.connect`, and over any whole program run `io.connect` is invoked
exactly once (at startup). -/
theorem oserror_only_caught_connect_once :
    (∀ (env : IterEnv) (s : LoopState) (lux tc : ℚ) (raw : ℤ),
      env.tCheck - s.last_updated ≥ 60 →
      env.luxRead = .ok lux →
      env.moistureRead = .ok raw →
      env.tempRead = .ok tc →
      (env.pubSun = some Exc.other ∨
       (env.pubSun = none ∧ env.pubMoisture = some Exc.other) ∨
       (env.pubSun = none ∧ env.pubMoisture = none ∧
         env.pubTemperature = some Exc.other)) →
      (loopIter env s).fatal = some Exc.other) ∧
    (∀ (env : IterEnv) (s : LoopState),
      Event.ioConnect ∉ (loopIter env s).events) ∧
    (∀ (t0 : ℚ) (envs : List IterEnv),
      (runProgram t0 envs).1.count Event.ioConnect = 1) := by
  refine ⟨?_, loopIter_no_ioConnect, ?_⟩
  · intro env s lux tc raw h hl hm ht hp
    rw [loopIter_sensors_ok_fatal env s lux tc raw h hl hm ht]
    unfold tryPublish
    rcases hp with h1 | ⟨h1, h2⟩ | ⟨h1, h2, h3⟩
    · rw [h1]
    · rw [h1, h2]
    · rw [h1, h2, h3]
  · intro t0 envs
    unfold runProgram
    dsimp only
    rw [List.count_cons_self,
      List.count_eq_zero.mpr (runLoop_no_ioConnect envs (initialState t0))]

/-- Witness for C10: the concrete cycle `envPubOther`, whose first
publish raises a non-`OSError` exception, is fatal; the successful
cycle makes no `io.connect` call; and a one-iteration program run
contains exactly one `io.connect`. -/
theorem oserror_only_caught_connect_once_witness :
    (loopIter envPubOther sIdle).fatal = some Exc.other ∧
    Event.ioConnect ∉ (loopIter envSuccess sIdle).events ∧
    (runProgram 100 [envSuccess]).1.count Event.ioConnect = 1 :=
  ⟨oserror_only_caught_connect_once.1 envPubOther sIdle 500 22 1000
      (by norm_num [envPubOther, sIdle]) rfl rfl rfl (Or.inl rfl),
    oserror_only_caught_connect_once.2.1 envSuccess sIdle,
    oserror_only_caught_connect_once.2.2 100 [envSuccess]⟩

end PlantMonitor
